import Mathlib

/-
Shallow embedding of the salesforce-rs core authentication client
(src/salesforce-core/src/client.rs).

External collaborators (filesystem reads, the serde_json text layer, the
url crate's URL parser, the reqwest HTTP executor and the oauth2 crate's
token request) are modelled as oracle functions gathered in an `Env`
record; everything the repository itself defines (the data model, the
validation logic, the serde-derive field schema for `Credentials`, the
builder, and the `connect` orchestration) is translated directly from the
source.
-/

namespace Salesforce

/-- JSON values, modelling the document tree that serde_json deserializes
from the credentials file text. -/
inductive Json where
  | null : Json
  | bool (b : Bool) : Json
  | num (n : Int) : Json
  | str (s : String) : Json
  | arr (elems : List Json) : Json
  | obj (fields : List (String × Json)) : Json

/-- Keys of a JSON object (empty for non-objects); used to state which
fields appear in a serialized document. -/
def Json.objKeys : Json → List String
  | .obj fields => fields.map Prod.fst
  | _ => []

/-- Salesforce OAuth2 credentials, translated from `struct Credentials`. -/
structure Credentials where
  client_id : String
  client_secret : Option String
  username : Option String
  password : Option String
  instance_url : String
  tenant_id : String
deriving DecidableEq

/-- OAuth2 authentication flow type, translated from `enum AuthFlow`.
The Rust `#[default]` attribute marks `ClientCredentials`. -/
inductive AuthFlow where
  | ClientCredentials : AuthFlow
  | UsernamePassword : AuthFlow
deriving DecidableEq

/-- The string produced by `format!("{:?}", auth_flow)` on each variant. -/
def AuthFlow.flowName : AuthFlow → String
  | .ClientCredentials => "ClientCredentials"
  | .UsernamePassword => "UsernamePassword"

/-- Source for loading credentials, translated from `enum CredentialsFrom`.
Paths are modelled as strings. -/
inductive CredentialsFrom where
  | Path (path : String) : CredentialsFrom
  | Value (creds : Credentials) : CredentialsFrom
deriving DecidableEq

/-- Opaque bearer-token record returned by the remote exchange
(`oauth2::StandardTokenResponse`); treated as opaque by this core. -/
structure TokenResult where
  access_token : String
deriving DecidableEq

/-- Error taxonomy, translated from `enum Error`. Underlying causes from
external libraries (io::Error, serde_json::Error, url::ParseError, the
boxed exchange error) are modelled as their message strings. -/
inductive Error where
  | ReadCredentials (path : String) (source : String) : Error
  | ParseCredentials (source : String) : Error
  | ParseUrl (source : String) : Error
  | TokenExchange (cause : String) : Error
  | MissingRequiredAttribute (attr : String) : Error
  | InvalidCredentials (flow : String) (message : String) : Error
deriving DecidableEq

/-- Default OAuth2 authorization endpoint path (`DEFAULT_AUTHORIZE_PATH`). -/
def DEFAULT_AUTHORIZE_PATH : String := "/services/oauth2/authorize"

/-- Default OAuth2 token endpoint path (`DEFAULT_TOKEN_PATH`). -/
def DEFAULT_TOKEN_PATH : String := "/services/oauth2/token"

/-- Redirect policy of the reqwest HTTP client; `reqwest::redirect::Policy`.
The code under verification always selects `Policy::none()`. -/
inductive RedirectPolicy where
  | none : RedirectPolicy
  | limited (max : Nat) : RedirectPolicy
deriving DecidableEq

/-- Configuration of the reqwest HTTP client as far as this core sets it:
the redirect policy chosen through `reqwest::Client::builder()`. -/
structure HttpConfig where
  redirect_policy : RedirectPolicy
deriving DecidableEq

/-- The oauth2 `BasicClient` configuration assembled by the exchange
procedures: client id, client secret, and the two endpoint URLs. -/
structure OAuth2Config where
  client_id : String
  client_secret : String
  auth_url : String
  token_url : String
deriving DecidableEq

/-- The grant-specific part of a token request: either the
client-credentials grant or the resource-owner-password grant with its
username and password. -/
inductive GrantRequest where
  | clientCredentialsGrant : GrantRequest
  | passwordGrant (username : String) (password : String) : GrantRequest
deriving DecidableEq

/-- External collaborators of the core, as oracle functions:
`read_to_string` models `std::fs::read_to_string` (error = the io cause);
`json_from_str` models serde_json's text-to-document layer (error = the
parse cause); `url_parse` models `url::Url::parse` as used by
`AuthUrl::new` / `TokenUrl::new` (error = the url cause);
`client_build` models `reqwest::Client::builder().build()`, which on
success yields a client with exactly the requested configuration;
`request_async` models `request_async` of the oauth2 crate performed over
the given HTTP client (error = the boxed exchange cause). -/
structure Env where
  read_to_string : String → Except String String
  json_from_str : String → Except String Json
  url_parse : String → Except String Unit
  client_build : HttpConfig → Except String Unit
  request_async : HttpConfig → OAuth2Config → GrantRequest → Except String TokenResult

/-- OAuth2 client for Salesforce API authentication, translated from
`struct Client`. -/
structure Client where
  credentials_from : CredentialsFrom
  auth_flow : AuthFlow
  token_result : Option TokenResult
  instance_url : Option String
  tenant_id : Option String
deriving DecidableEq

/-- Accumulator for the serde-derive deserializer of `Credentials`: each
field is `none` until its key has been visited. For the three optional
fields the inner option is the deserialized `Option<String>` value. -/
structure CredAcc where
  client_id : Option String
  client_secret : Option (Option String)
  username : Option (Option String)
  password : Option (Option String)
  instance_url : Option String
  tenant_id : Option String

/-- The empty accumulator: no field visited yet. -/
def CredAcc.empty : CredAcc := ⟨none, none, none, none, none, none⟩

/-- One step of the serde-derive map visitor for `Credentials`: dispatch on
the key, reject duplicate fields, require a JSON string for `String`
fields and a string or null for `Option<String>` fields, and ignore
unknown keys (the struct does not enable `deny_unknown_fields`). -/
def stepField (acc : CredAcc) (k : String) (v : Json) : Except String CredAcc :=
  if k = "client_id" then
    match acc.client_id with
    | some _ => .error "duplicate field client_id"
    | none =>
      match v with
      | Json.str s => .ok { acc with client_id := some s }
      | _ => .error "invalid type for client_id"
  else if k = "client_secret" then
    match acc.client_secret with
    | some _ => .error "duplicate field client_secret"
    | none =>
      match v with
      | Json.null => .ok { acc with client_secret := some none }
      | Json.str s => .ok { acc with client_secret := some (some s) }
      | _ => .error "invalid type for client_secret"
  else if k = "username" then
    match acc.username with
    | some _ => .error "duplicate field username"
    | none =>
      match v with
      | Json.null => .ok { acc with username := some none }
      | Json.str s => .ok { acc with username := some (some s) }
      | _ => .error "invalid type for username"
  else if k = "password" then
    match acc.password with
    | some _ => .error "duplicate field password"
    | none =>
      match v with
      | Json.null => .ok { acc with password := some none }
      | Json.str s => .ok { acc with password := some (some s) }
      | _ => .error "invalid type for password"
  else if k = "instance_url" then
    match acc.instance_url with
    | some _ => .error "duplicate field instance_url"
    | none =>
      match v with
      | Json.str s => .ok { acc with instance_url := some s }
      | _ => .error "invalid type for instance_url"
  else if k = "tenant_id" then
    match acc.tenant_id with
    | some _ => .error "duplicate field tenant_id"
    | none =>
      match v with
      | Json.str s => .ok { acc with tenant_id := some s }
      | _ => .error "invalid type for tenant_id"
  else
    .ok acc

/-- Visit the fields of a JSON object in order, threading the accumulator. -/
def readFields (fields : List (String × Json)) (acc : CredAcc) : Except String CredAcc :=
  match fields with
  | [] => .ok acc
  | (k, v) :: rest =>
    match stepField acc k v with
    | .error e => .error e
    | .ok acc' => readFields rest acc'

/-- Deserialization of `Credentials` from a JSON document, following the
serde derive: the document must be an object; after visiting all fields,
the required `String` fields are checked in declaration order
(`client_id`, `instance_url`, `tenant_id`) and a missing one is an error,
while missing `Option<String>` fields default to `None`. -/
def decodeCredentials (j : Json) : Except String Credentials :=
  match j with
  | Json.obj fields =>
    match readFields fields CredAcc.empty with
    | .error e => .error e
    | .ok acc =>
      match acc.client_id with
      | none => .error "missing field client_id"
      | some client_id =>
        match acc.instance_url with
        | none => .error "missing field instance_url"
        | some instance_url =>
          match acc.tenant_id with
          | none => .error "missing field tenant_id"
          | some tenant_id =>
            .ok { client_id := client_id
                  client_secret := acc.client_secret.getD none
                  username := acc.username.getD none
                  password := acc.password.getD none
                  instance_url := instance_url
                  tenant_id := tenant_id }
  | _ => .error "invalid type: expected struct Credentials"

/-- Serialization of `Credentials` to a JSON document, following the serde
derive: fields in declaration order, with each `Option<String>` field
skipped entirely when `None` (`skip_serializing_if = "Option::is_none"`). -/
def serializeCredentials (c : Credentials) : Json :=
  Json.obj
    ([("client_id", Json.str c.client_id)]
      ++ (match c.client_secret with
          | some s => [("client_secret", Json.str s)]
          | none => [])
      ++ (match c.username with
          | some s => [("username", Json.str s)]
          | none => [])
      ++ (match c.password with
          | some s => [("password", Json.str s)]
          | none => [])
      ++ [("instance_url", Json.str c.instance_url),
          ("tenant_id", Json.str c.tenant_id)])

/-- Validation of required credential fields for the selected auth flow,
translated from `Client::validate_credentials`. -/
def Client.validate_credentials (self : Client) (credentials : Credentials) :
    Except Error Unit :=
  let flow_name := self.auth_flow.flowName
  match self.auth_flow with
  | AuthFlow.ClientCredentials =>
    if credentials.client_secret.isNone then
      .error (Error.InvalidCredentials flow_name "client_secret is required")
    else
      .ok ()
  | AuthFlow.UsernamePassword =>
    if credentials.client_secret.isNone then
      .error (Error.InvalidCredentials flow_name "client_secret is required")
    else if credentials.username.isNone then
      .error (Error.InvalidCredentials flow_name "username is required")
    else if credentials.password.isNone then
      .error (Error.InvalidCredentials flow_name "password is required")
    else
      .ok ()

/-- The credential-resolution step at the top of `Client::connect`: a
`Value` source yields a copy of the held credentials; a `Path` source
reads the file (failure becomes `ReadCredentials` with the path and the
io cause) and deserializes the text (either serde_json layer failing
becomes `ParseCredentials` with the parse cause). -/
def Client.resolve_credentials (env : Env) (self : Client) :
    Except Error Credentials :=
  match self.credentials_from with
  | CredentialsFrom.Value creds => .ok creds
  | CredentialsFrom.Path path =>
    match env.read_to_string path with
    | .error e => .error (Error.ReadCredentials path e)
    | .ok credentials_string =>
      match env.json_from_str credentials_string with
      | .error e => .error (Error.ParseCredentials e)
      | .ok doc =>
        match decodeCredentials doc with
        | .error e => .error (Error.ParseCredentials e)
        | .ok creds => .ok creds

/-- OAuth2 Client Credentials flow, translated from
`Client::exchange_client_credentials`: re-extract the client secret
(`InvalidCredentials` when absent), build the authorization and token
endpoint URLs from the instance URL and the fixed paths (`ParseUrl` when
either concatenation fails to parse), then perform the grant request over
the given HTTP client (`TokenExchange` on failure). -/
def Client.exchange_client_credentials (env : Env) (_self : Client)
    (credentials : Credentials) (http_client : HttpConfig) :
    Except Error TokenResult :=
  match credentials.client_secret with
  | none => .error (Error.InvalidCredentials "ClientCredentials" "client_secret is required")
  | some client_secret =>
    match env.url_parse (credentials.instance_url ++ DEFAULT_AUTHORIZE_PATH) with
    | .error e => .error (Error.ParseUrl e)
    | .ok _ =>
      match env.url_parse (credentials.instance_url ++ DEFAULT_TOKEN_PATH) with
      | .error e => .error (Error.ParseUrl e)
      | .ok _ =>
        let oauth2_client : OAuth2Config :=
          { client_id := credentials.client_id
            client_secret := client_secret
            auth_url := credentials.instance_url ++ DEFAULT_AUTHORIZE_PATH
            token_url := credentials.instance_url ++ DEFAULT_TOKEN_PATH }
        match env.request_async http_client oauth2_client GrantRequest.clientCredentialsGrant with
        | .error e => .error (Error.TokenExchange e)
        | .ok token => .ok token

/-- OAuth2 Resource Owner Password Credentials flow, translated from
`Client::exchange_password`: re-extract client secret, username and
password in that order (`InvalidCredentials` when one is absent), build
the endpoint URLs, then perform the password grant request. -/
def Client.exchange_password (env : Env) (_self : Client)
    (credentials : Credentials) (http_client : HttpConfig) :
    Except Error TokenResult :=
  match credentials.client_secret with
  | none => .error (Error.InvalidCredentials "UsernamePassword" "client_secret is required")
  | some client_secret =>
    match credentials.username with
    | none => .error (Error.InvalidCredentials "UsernamePassword" "username is required")
    | some username =>
      match credentials.password with
      | none => .error (Error.InvalidCredentials "UsernamePassword" "password is required")
      | some password =>
        match env.url_parse (credentials.instance_url ++ DEFAULT_AUTHORIZE_PATH) with
        | .error e => .error (Error.ParseUrl e)
        | .ok _ =>
          match env.url_parse (credentials.instance_url ++ DEFAULT_TOKEN_PATH) with
          | .error e => .error (Error.ParseUrl e)
          | .ok _ =>
            let oauth2_client : OAuth2Config :=
              { client_id := credentials.client_id
                client_secret := client_secret
                auth_url := credentials.instance_url ++ DEFAULT_AUTHORIZE_PATH
                token_url := credentials.instance_url ++ DEFAULT_TOKEN_PATH }
            match env.request_async http_client oauth2_client
                (GrantRequest.passwordGrant username password) with
            | .error e => .error (Error.TokenExchange e)
            | .ok token => .ok token

/-- Connection orchestration, translated from `Client::connect`: resolve
the credentials, validate them for the selected flow, build the HTTP
client with redirect following disabled (a builder failure becomes
`TokenExchange`), dispatch to the flow's exchange procedure, and on
success set the token result, instance URL and tenant id together on the
returned client. -/
def Client.connect (env : Env) (self : Client) : Except Error Client :=
  match self.resolve_credentials env with
  | .error e => .error e
  | .ok credentials =>
    match self.validate_credentials credentials with
    | .error e => .error e
    | .ok _ =>
      let http_client : HttpConfig := { redirect_policy := RedirectPolicy.none }
      match env.client_build http_client with
      | .error e => .error (Error.TokenExchange e)
      | .ok _ =>
        match
          (match self.auth_flow with
           | AuthFlow.ClientCredentials =>
             self.exchange_client_credentials env credentials http_client
           | AuthFlow.UsernamePassword =>
             self.exchange_password env credentials http_client) with
        | .error e => .error e
        | .ok token_result =>
          .ok { self with
                token_result := some token_result
                instance_url := some credentials.instance_url
                tenant_id := some credentials.tenant_id }

/-- Builder for constructing a `Client`, translated from `struct Builder`. -/
structure Builder where
  credentials_from : Option CredentialsFrom
  auth_flow : Option AuthFlow
deriving DecidableEq

/-- Creates a new builder (`Builder::new`, via `Default`). -/
def Builder.new : Builder := ⟨none, none⟩

/-- Sets credentials to load from a JSON file (`Builder::credentials_path`). -/
def Builder.credentials_path (self : Builder) (path : String) : Builder :=
  { self with credentials_from := some (CredentialsFrom.Path path) }

/-- Sets credentials directly (`Builder::credentials`). -/
def Builder.credentials (self : Builder) (credentials : Credentials) : Builder :=
  { self with credentials_from := some (CredentialsFrom.Value credentials) }

/-- Sets the OAuth2 authentication flow (`Builder::auth_flow`; renamed here
because the field projection takes that name). -/
def Builder.with_auth_flow (self : Builder) (auth_flow : AuthFlow) : Builder :=
  { self with auth_flow := some auth_flow }

/-- Builds the client, translated from `Builder::build`: fails with
`MissingRequiredAttribute` when no credential source was configured, and
otherwise produces a pre-authentication client whose flow defaults to
`ClientCredentials` (the Rust `Default` of `AuthFlow`). The function takes
no `Env`: building performs no I/O. -/
def Builder.build (self : Builder) : Except Error Client :=
  match self.credentials_from with
  | none => .error (Error.MissingRequiredAttribute "credentials or credentials_path")
  | some credentials_from =>
    .ok { credentials_from := credentials_from
          auth_flow := self.auth_flow.getD AuthFlow.ClientCredentials
          token_result := none
          instance_url := none
          tenant_id := none }

/-- Clients producible through the public interface: a successful
`Builder::build`, followed by zero or more successful `connect` calls
(each under an arbitrary environment). -/
inductive Producible : Client → Prop where
  | build (b : Builder) (c : Client) : b.build = .ok c → Producible c
  | connect (env : Env) (c c' : Client) :
      Producible c → c.connect env = .ok c' → Producible c'

/-- Sample credentials with every optional field present, used by the
concrete witnesses. -/
def sampleCreds : Credentials :=
  { client_id := "id"
    client_secret := some "secret"
    username := some "user"
    password := some "pass"
    instance_url := "https://example.my.salesforce.com"
    tenant_id := "tenant" }

/-- Sample pre-authentication client configured for the username-password
flow. -/
def sampleClientUP : Client :=
  { credentials_from := CredentialsFrom.Value sampleCreds
    auth_flow := AuthFlow.UsernamePassword
    token_result := none
    instance_url := none
    tenant_id := none }

/-- Sample pre-authentication client configured for the client-credentials
flow. -/
def sampleClientCC : Client :=
  { sampleClientUP with auth_flow := AuthFlow.ClientCredentials }

/-- Sample pre-authentication client configured with a file path source. -/
def samplePathClient : Client :=
  { credentials_from := CredentialsFrom.Path "credentials.json"
    auth_flow := AuthFlow.ClientCredentials
    token_result := none
    instance_url := none
    tenant_id := none }

/-- Concrete environment whose URL parser and exchange succeed and whose
filesystem has no readable files; used by the concrete witnesses. -/
def envAllOk : Env :=
  { read_to_string := fun _ => Except.error "No such file or directory (os error 2)"
    json_from_str := fun _ => Except.error "expected value at line 1 column 1"
    url_parse := fun _ => Except.ok ()
    client_build := fun _ => Except.ok ()
    request_async := fun _ _ _ => Except.ok { access_token := "token" } }

/-- Concrete environment whose filesystem yields text that is not JSON. -/
def envBadJson : Env :=
  { envAllOk with
    read_to_string := fun _ => Except.ok "not json"
    json_from_str := fun _ => Except.error "expected value at line 1 column 1" }

/-- Literal text of a credentials file holding only a client_id field. -/
def invalidCredsText : String := "\x7b\"client_id\":\"x\"\x7d"

/-- Concrete environment whose filesystem yields well-formed JSON that does
not satisfy the `Credentials` schema. -/
def envSchemaMismatch : Env :=
  { envAllOk with
    read_to_string := fun _ => Except.ok invalidCredsText
    json_from_str := fun _ => Except.ok (Json.obj [("client_id", Json.str "x")]) }

/-- Sample credentials whose instance URL lacks a scheme. -/
def noSchemeCreds : Credentials :=
  { sampleCreds with instance_url := "mydomain.salesforce.com" }

/-- Concrete environment whose URL parser rejects exactly the two endpoint
concatenations built from the scheme-less instance URL. -/
def envNoScheme : Env :=
  { envAllOk with
    url_parse := fun s =>
      if s = "mydomain.salesforce.com/services/oauth2/authorize" ∨
          s = "mydomain.salesforce.com/services/oauth2/token" then
        Except.error "relative URL without a base"
      else
        Except.ok () }

/-- Sample client-credentials client holding the scheme-less credentials. -/
def sampleClientNoScheme : Client :=
  { sampleClientCC with credentials_from := CredentialsFrom.Value noSchemeCreds }

/-- An exchange executor that only succeeds when redirect following is
disabled; it agrees with `envAllOk`'s executor on redirect-free
configurations and differs everywhere else. -/
def altExchange : HttpConfig → OAuth2Config → GrantRequest → Except String TokenResult :=
  fun cfg _ _ =>
    match cfg.redirect_policy with
    | RedirectPolicy.none => Except.ok { access_token := "token" }
    | RedirectPolicy.limited _ => Except.error "redirect followed"

/-- C2: credential validation reports the first missing required field in
the fixed flow-specific order. For the client-credentials flow the
validator fails with the client_secret message exactly when the secret is
absent; for the username-password flow it checks client_secret, then
username, then password, reporting the first absent field (so with both
client_secret and username absent, client_secret is the one reported). -/
theorem claim2_validation_order (cl : Client) (c : Credentials) :
    (cl.auth_flow = AuthFlow.ClientCredentials →
      ((cl.validate_credentials c =
          Except.error (Error.InvalidCredentials "ClientCredentials" "client_secret is required")) ↔
        c.client_secret = none) ∧
      (c.client_secret ≠ none → cl.validate_credentials c = Except.ok ())) ∧
    (cl.auth_flow = AuthFlow.UsernamePassword →
      (c.client_secret = none →
        cl.validate_credentials c =
          Except.error (Error.InvalidCredentials "UsernamePassword" "client_secret is required")) ∧
      (c.client_secret ≠ none → c.username = none →
        cl.validate_credentials c =
          Except.error (Error.InvalidCredentials "UsernamePassword" "username is required")) ∧
      (c.client_secret ≠ none → c.username ≠ none → c.password = none →
        cl.validate_credentials c =
          Except.error (Error.InvalidCredentials "UsernamePassword" "password is required")) ∧
      (c.client_secret ≠ none → c.username ≠ none → c.password ≠ none →
        cl.validate_credentials c = Except.ok ())) := by
  constructor
  · intro hflow
    constructor
    · cases hcs : c.client_secret with
      | none => simp [Client.validate_credentials, hflow, AuthFlow.flowName, hcs]
      | some s => simp [Client.validate_credentials, hflow, AuthFlow.flowName, hcs]
    · intro hcs
      rcases Option.ne_none_iff_exists'.mp hcs with ⟨s, hs⟩
      simp [Client.validate_credentials, hflow, AuthFlow.flowName, hs]
  · intro hflow
    refine ⟨fun hcs => ?_, fun hcs hu => ?_, fun hcs hu hp => ?_, fun hcs hu hp => ?_⟩
    · simp [Client.validate_credentials, hflow, AuthFlow.flowName, hcs]
    · rcases Option.ne_none_iff_exists'.mp hcs with ⟨s, hs⟩
      simp [Client.validate_credentials, hflow, AuthFlow.flowName, hs, hu]
    · rcases Option.ne_none_iff_exists'.mp hcs with ⟨s, hs⟩
      rcases Option.ne_none_iff_exists'.mp hu with ⟨u, hu'⟩
      simp [Client.validate_credentials, hflow, AuthFlow.flowName, hs, hu', hp]
    · rcases Option.ne_none_iff_exists'.mp hcs with ⟨s, hs⟩
      rcases Option.ne_none_iff_exists'.mp hu with ⟨u, hu'⟩
      rcases Option.ne_none_iff_exists'.mp hp with ⟨p, hp'⟩
      simp [Client.validate_credentials, hflow, AuthFlow.flowName, hs, hu', hp']

/-- Witness for C2: under the username-password flow, with client_secret
and username both absent, the reported missing field is client_secret. -/
theorem claim2_validation_order_witness :
    sampleClientUP.validate_credentials
      { sampleCreds with client_secret := none, username := none } =
      Except.error (Error.InvalidCredentials "UsernamePassword" "client_secret is required") :=
  ((claim2_validation_order sampleClientUP
      { sampleCreds with client_secret := none, username := none }).2 rfl).1 rfl

/-- C3: `build` fails with `MissingRequiredAttribute "credentials or
credentials_path"` exactly when no credential source was supplied, for
every flow configuration; with a source supplied it succeeds without I/O
(the function takes no environment) and the produced client's flow is the
configured one, or `ClientCredentials` when none was configured. -/
theorem claim3_build (b : Builder) :
    (b.build =
        Except.error (Error.MissingRequiredAttribute "credentials or credentials_path") ↔
      b.credentials_from = none) ∧
    (∀ src, b.credentials_from = some src →
      ∃ c : Client, b.build = Except.ok c ∧ c.credentials_from = src ∧
        c.token_result = none ∧ c.instance_url = none ∧ c.tenant_id = none ∧
        (b.auth_flow = none → c.auth_flow = AuthFlow.ClientCredentials) ∧
        (∀ f, b.auth_flow = some f → c.auth_flow = f)) := by
  constructor
  · cases hcf : b.credentials_from with
    | none => simp [Builder.build, hcf]
    | some src => simp [Builder.build, hcf]
  · intro src hcf
    refine ⟨{ credentials_from := src
              auth_flow := b.auth_flow.getD AuthFlow.ClientCredentials
              token_result := none
              instance_url := none
              tenant_id := none },
            by simp [Builder.build, hcf], rfl, rfl, rfl, rfl, ?_, ?_⟩
    · intro haf
      simp [haf]
    · intro f haf
      simp [haf]

/-- Witness for C3: a fresh builder fails with the exact attribute string,
and supplying in-memory credentials makes `build` succeed with that
source. -/
theorem claim3_build_witness :
    Builder.new.build =
      Except.error (Error.MissingRequiredAttribute "credentials or credentials_path") ∧
    ∃ c : Client, (Builder.new.credentials sampleCreds).build = Except.ok c ∧
      c.credentials_from = CredentialsFrom.Value sampleCreds :=
  ⟨(claim3_build Builder.new).1.mpr rfl, by
    obtain ⟨c, hc, hcf, -, -, -, -, -⟩ :=
      (claim3_build (Builder.new.credentials sampleCreds)).2
        (CredentialsFrom.Value sampleCreds) rfl
    exact ⟨c, hc, hcf⟩⟩

/-- C10: validation checks only presence of the flow's required optional
fields, never their contents: empty strings everywhere (with the required
optional fields present as `some ""`) pass validation for both flows. -/
theorem claim10_presence_only (client_id instance_url tenant_id : String) (cl : Client) :
    (cl.auth_flow = AuthFlow.ClientCredentials →
      ∀ username password : Option String,
        cl.validate_credentials
          { client_id := client_id, client_secret := some "", username := username,
            password := password, instance_url := instance_url, tenant_id := tenant_id } =
          Except.ok ()) ∧
    (cl.auth_flow = AuthFlow.UsernamePassword →
      cl.validate_credentials
        { client_id := client_id, client_secret := some "", username := some "",
          password := some "", instance_url := instance_url, tenant_id := tenant_id } =
        Except.ok ()) := by
  constructor
  · intro hflow username password
    simp [Client.validate_credentials, hflow]
  · intro hflow
    simp [Client.validate_credentials, hflow]

/-- Witness for C10: all-empty-string credentials pass validation under
both flows. -/
theorem claim10_presence_only_witness :
    sampleClientCC.validate_credentials
      { client_id := "", client_secret := some "", username := none, password := none,
        instance_url := "", tenant_id := "" } = Except.ok () ∧
    sampleClientUP.validate_credentials
      { client_id := "", client_secret := some "", username := some "", password := some "",
        instance_url := "", tenant_id := "" } = Except.ok () :=
  ⟨(claim10_presence_only "" "" "" sampleClientCC).1 rfl none none,
   (claim10_presence_only "" "" "" sampleClientUP).2 rfl⟩

/-- C7: serializing a `Credentials` value to the JSON schema and parsing
the result back yields the original value field for field, and every
optional field that is `none` is entirely absent from the serialized
object (no key at all, rather than a null value). -/
theorem claim7_roundtrip (c : Credentials) :
    decodeCredentials (serializeCredentials c) = Except.ok c ∧
    (c.client_secret = none →
      (serializeCredentials c).objKeys.contains "client_secret" = false) ∧
    (c.username = none →
      (serializeCredentials c).objKeys.contains "username" = false) ∧
    (c.password = none →
      (serializeCredentials c).objKeys.contains "password" = false) := by
  obtain ⟨cid, cs, un, pw, iu, ti⟩ := c
  cases cs <;> cases un <;> cases pw <;>
    simp [serializeCredentials, decodeCredentials, readFields, stepField,
      CredAcc.empty, Json.objKeys]

/-- Witness for C7: the round trip at concrete credentials with username
and password absent, whose serialized form omits both keys. -/
theorem claim7_roundtrip_witness :
    decodeCredentials
        (serializeCredentials { sampleCreds with username := none, password := none }) =
      Except.ok { sampleCreds with username := none, password := none } ∧
    (serializeCredentials
        { sampleCreds with username := none, password := none }).objKeys.contains
      "username" = false ∧
    (serializeCredentials
        { sampleCreds with username := none, password := none }).objKeys.contains
      "password" = false :=
  ⟨(claim7_roundtrip { sampleCreds with username := none, password := none }).1,
   (claim7_roundtrip { sampleCreds with username := none, password := none }).2.2.1 rfl,
   (claim7_roundtrip { sampleCreds with username := none, password := none }).2.2.2 rfl⟩

/-- C1: the three authentication fields are all unset or all set on every
client producible through the public interface: `build` yields all three
`none`, a successful `connect` yields all three `some` (set together), and
hence every producible client satisfies the all-or-nothing invariant. -/
theorem claim1_auth_fields_all_or_nothing :
    (∀ (b : Builder) (c : Client), b.build = Except.ok c →
      c.token_result = none ∧ c.instance_url = none ∧ c.tenant_id = none) ∧
    (∀ (env : Env) (c c' : Client), c.connect env = Except.ok c' →
      c'.token_result ≠ none ∧ c'.instance_url ≠ none ∧ c'.tenant_id ≠ none) ∧
    (∀ c : Client, Producible c →
      (c.token_result = none ∧ c.instance_url = none ∧ c.tenant_id = none) ∨
      (c.token_result ≠ none ∧ c.instance_url ≠ none ∧ c.tenant_id ≠ none)) := by
  have hbuild : ∀ (b : Builder) (c : Client), b.build = Except.ok c →
      c.token_result = none ∧ c.instance_url = none ∧ c.tenant_id = none := by
    intro b c h
    cases hcf : b.credentials_from with
    | none => simp [Builder.build, hcf] at h
    | some src =>
      simp [Builder.build, hcf] at h
      simp [← h]
  have hconnect : ∀ (env : Env) (c c' : Client), c.connect env = Except.ok c' →
      c'.token_result ≠ none ∧ c'.instance_url ≠ none ∧ c'.tenant_id ≠ none := by
    intro env c c' h
    simp only [Client.connect] at h
    repeat' split at h
    all_goals
      first
      | (rw [Except.ok.injEq] at h
         refine ⟨?_, ?_, ?_⟩ <;> simp [← h])
      | simp at h
  refine ⟨hbuild, hconnect, ?_⟩
  intro c hc
  induction hc with
  | build b c hb => exact Or.inl (hbuild b c hb)
  | connect env c c' hc hcon ih => exact Or.inr (hconnect env c c' hcon)

/-- Witness for C1: a built client has all three authentication fields
unset, and a successful connect yields one with all three set. -/
theorem claim1_auth_fields_all_or_nothing_witness :
    (sampleClientUP.token_result = none ∧ sampleClientUP.instance_url = none ∧
      sampleClientUP.tenant_id = none) ∧
    ∃ c' : Client, sampleClientUP.connect envAllOk = Except.ok c' ∧
      c'.token_result ≠ none ∧ c'.instance_url ≠ none ∧ c'.tenant_id ≠ none := by
  have h1 :=
    claim1_auth_fields_all_or_nothing.1
      ((Builder.new.credentials sampleCreds).with_auth_flow AuthFlow.UsernamePassword)
      sampleClientUP rfl
  have hok : sampleClientUP.connect envAllOk = Except.ok
      { sampleClientUP with
        token_result := some { access_token := "token" }
        instance_url := some "https://example.my.salesforce.com"
        tenant_id := some "tenant" } := rfl
  have h2 := claim1_auth_fields_all_or_nothing.2.1 envAllOk sampleClientUP _ hok
  exact ⟨h1, _, hok, h2⟩

/-- C4: credential resolution at the start of connect. A `Path` source
fails with `ReadCredentials` (carrying the path and io cause) when the
file cannot be read, and with `ParseCredentials` (carrying the parse
cause) when the text is rejected by either serde_json layer; a `Value`
source resolves to the held credentials and cannot fail. -/
theorem claim4_resolution (env : Env) (cl : Client) :
    (∀ path e, cl.credentials_from = CredentialsFrom.Path path →
      env.read_to_string path = Except.error e →
      cl.connect env = Except.error (Error.ReadCredentials path e)) ∧
    (∀ path s e, cl.credentials_from = CredentialsFrom.Path path →
      env.read_to_string path = Except.ok s →
      env.json_from_str s = Except.error e →
      cl.connect env = Except.error (Error.ParseCredentials e)) ∧
    (∀ path s j e, cl.credentials_from = CredentialsFrom.Path path →
      env.read_to_string path = Except.ok s →
      env.json_from_str s = Except.ok j →
      decodeCredentials j = Except.error e →
      cl.connect env = Except.error (Error.ParseCredentials e)) ∧
    (∀ creds, cl.credentials_from = CredentialsFrom.Value creds →
      cl.resolve_credentials env = Except.ok creds) := by
  refine ⟨?_, ?_, ?_, ?_⟩
  · intro path e hcf hread
    simp [Client.connect, Client.resolve_credentials, hcf, hread]
  · intro path s e hcf hread hjson
    simp [Client.connect, Client.resolve_credentials, hcf, hread, hjson]
  · intro path s j e hcf hread hjson hdec
    simp [Client.connect, Client.resolve_credentials, hcf, hread, hjson, hdec]
  · intro creds hcf
    simp [Client.resolve_credentials, hcf]

/-- Witness for C4: an unreadable file yields `ReadCredentials`, non-JSON
text yields `ParseCredentials`, and a `Value` source resolves to the held
credentials. -/
theorem claim4_resolution_witness :
    samplePathClient.connect envAllOk =
      Except.error (Error.ReadCredentials "credentials.json"
        "No such file or directory (os error 2)") ∧
    samplePathClient.connect envBadJson =
      Except.error (Error.ParseCredentials "expected value at line 1 column 1") ∧
    sampleClientUP.resolve_credentials envAllOk = Except.ok sampleCreds :=
  ⟨(claim4_resolution envAllOk samplePathClient).1 "credentials.json"
      "No such file or directory (os error 2)" rfl rfl,
   (claim4_resolution envBadJson samplePathClient).2.1 "credentials.json" "not json"
      "expected value at line 1 column 1" rfl rfl rfl,
   (claim4_resolution envAllOk sampleClientUP).2.2.2 sampleCreds rfl⟩

/-- C5: a credentials file holding exactly the JSON object with one
client_id field is well-formed JSON that misses required schema fields, so
connect fails with `ParseCredentials` (here: the missing instance_url
field), and never with `InvalidCredentials`. -/
theorem claim5_schema_mismatch (env : Env) (cl : Client) (path : String)
    (hsrc : cl.credentials_from = CredentialsFrom.Path path)
    (hread : env.read_to_string path = Except.ok invalidCredsText)
    (hjson : env.json_from_str invalidCredsText =
      Except.ok (Json.obj [("client_id", Json.str "x")])) :
    cl.connect env = Except.error (Error.ParseCredentials "missing field instance_url") ∧
    ∀ flow msg, cl.connect env ≠ Except.error (Error.InvalidCredentials flow msg) := by
  have hdec : decodeCredentials (Json.obj [("client_id", Json.str "x")]) =
      Except.error "missing field instance_url" := rfl
  have hc : cl.connect env =
      Except.error (Error.ParseCredentials "missing field instance_url") := by
    simp [Client.connect, Client.resolve_credentials, hsrc, hread, hjson, hdec]
  exact ⟨hc, fun flow msg => by simp [hc]⟩

/-- Witness for C5: the concrete one-field credentials file produces the
`ParseCredentials` error. -/
theorem claim5_schema_mismatch_witness :
    samplePathClient.connect envSchemaMismatch =
      Except.error (Error.ParseCredentials "missing field instance_url") :=
  (claim5_schema_mismatch envSchemaMismatch samplePathClient "credentials.json"
      rfl rfl rfl).1

/-- Helper: a successful validation pins down presence of the fields the
selected flow requires. -/
theorem validate_ok_presence (cl : Client) (c : Credentials)
    (h : cl.validate_credentials c = Except.ok ()) :
    c.client_secret ≠ none ∧
    (cl.auth_flow = AuthFlow.UsernamePassword → c.username ≠ none ∧ c.password ≠ none) := by
  obtain ⟨cid, cs, un, pw, iu, ti⟩ := c
  cases hflow : cl.auth_flow <;>
    simp [Client.validate_credentials, hflow] at h <;>
    cases cs <;> cases un <;> cases pw <;> simp_all

/-- C6: for credentials that pass validation but whose instance URL
concatenated with either fixed endpoint path is rejected by the URL
parser, connect fails with `ParseUrl`, under both flow strategies. -/
theorem claim6_parse_url (env : Env) (cl : Client) (creds : Credentials)
    (hres : cl.resolve_credentials env = Except.ok creds)
    (hval : cl.validate_credentials creds = Except.ok ())
    (hbuild : env.client_build { redirect_policy := RedirectPolicy.none } = Except.ok ())
    (hurl : (∃ e, env.url_parse (creds.instance_url ++ DEFAULT_AUTHORIZE_PATH) =
        Except.error e) ∨
      (∃ e, env.url_parse (creds.instance_url ++ DEFAULT_TOKEN_PATH) = Except.error e)) :
    ∃ e, cl.connect env = Except.error (Error.ParseUrl e) := by
  obtain ⟨hcs, hup⟩ := validate_ok_presence cl creds hval
  rcases Option.ne_none_iff_exists'.mp hcs with ⟨s, hs⟩
  cases hflow : cl.auth_flow with
  | ClientCredentials =>
    rcases hurl with ⟨e, he⟩ | ⟨e, he⟩
    · exact ⟨e, by simp [Client.connect, hres, hval, hbuild, hflow,
        Client.exchange_client_credentials, hs, he]⟩
    · rcases ha : env.url_parse (creds.instance_url ++ DEFAULT_AUTHORIZE_PATH) with e' | u
      · exact ⟨e', by simp [Client.connect, hres, hval, hbuild, hflow,
          Client.exchange_client_credentials, hs, ha]⟩
      · exact ⟨e, by simp [Client.connect, hres, hval, hbuild, hflow,
          Client.exchange_client_credentials, hs, ha, he]⟩
  | UsernamePassword =>
    obtain ⟨hun, hpw⟩ := hup hflow
    rcases Option.ne_none_iff_exists'.mp hun with ⟨u, hu⟩
    rcases Option.ne_none_iff_exists'.mp hpw with ⟨p, hp⟩
    rcases hurl with ⟨e, he⟩ | ⟨e, he⟩
    · exact ⟨e, by simp [Client.connect, hres, hval, hbuild, hflow,
        Client.exchange_password, hs, hu, hp, he]⟩
    · rcases ha : env.url_parse (creds.instance_url ++ DEFAULT_AUTHORIZE_PATH) with e' | u'
      · exact ⟨e', by simp [Client.connect, hres, hval, hbuild, hflow,
          Client.exchange_password, hs, hu, hp, ha]⟩
      · exact ⟨e, by simp [Client.connect, hres, hval, hbuild, hflow,
          Client.exchange_password, hs, hu, hp, ha, he]⟩

/-- Witness for C6: with the scheme-less instance URL, connect fails with
`ParseUrl`. -/
theorem claim6_parse_url_witness :
    ∃ e, sampleClientNoScheme.connect envNoScheme = Except.error (Error.ParseUrl e) :=
  claim6_parse_url envNoScheme sampleClientNoScheme noSchemeCreds rfl rfl rfl
    (Or.inl ⟨"relative URL without a base", rfl⟩)

/-- C8: the HTTP request executor handed to either flow strategy is the
one built with redirect following disabled: the outcome of connect is
unchanged when the exchange oracle is replaced by any oracle that agrees
with it on redirect-free configurations. -/
theorem claim8_redirects_disabled (env : Env)
    (f : HttpConfig → OAuth2Config → GrantRequest → Except String TokenResult)
    (cl : Client)
    (hagree : ∀ oc gr, f { redirect_policy := RedirectPolicy.none } oc gr =
      env.request_async { redirect_policy := RedirectPolicy.none } oc gr) :
    cl.connect { env with request_async := f } = cl.connect env := by
  unfold Client.connect Client.resolve_credentials Client.exchange_client_credentials
    Client.exchange_password
  simp only []
  repeat' split
  all_goals simp_all [hagree]

/-- Witness for C8: connect under an executor that rejects every
redirect-following configuration coincides with connect under the
all-succeeding executor. -/
theorem claim8_redirects_disabled_witness :
    sampleClientUP.connect { envAllOk with request_async := altExchange } =
      sampleClientUP.connect envAllOk :=
  claim8_redirects_disabled envAllOk altExchange sampleClientUP (fun _ _ => rfl)

/-- C9: once validation has succeeded for the configured flow, the
field-presence re-checks inside the exchange procedures are unreachable:
the dispatched exchange can only fail with `ParseUrl` or `TokenExchange`. -/
theorem claim9_recheck_unreachable (env : Env) (cl : Client) (creds : Credentials)
    (cfg : HttpConfig)
    (hval : cl.validate_credentials creds = Except.ok ()) :
    (cl.auth_flow = AuthFlow.ClientCredentials →
      ∀ e, cl.exchange_client_credentials env creds cfg = Except.error e →
        (∃ s, e = Error.ParseUrl s) ∨ (∃ s, e = Error.TokenExchange s)) ∧
    (cl.auth_flow = AuthFlow.UsernamePassword →
      ∀ e, cl.exchange_password env creds cfg = Except.error e →
        (∃ s, e = Error.ParseUrl s) ∨ (∃ s, e = Error.TokenExchange s)) := by
  obtain ⟨hcs, hup⟩ := validate_ok_presence cl creds hval
  rcases Option.ne_none_iff_exists'.mp hcs with ⟨s, hs⟩
  constructor
  · intro _hflow e he
    unfold Client.exchange_client_credentials at he
    simp only [hs] at he
    rcases ha : env.url_parse (creds.instance_url ++ DEFAULT_AUTHORIZE_PATH) with e1 | u1 <;>
      simp only [ha] at he
    · exact Or.inl ⟨e1, by simp only [Except.error.injEq] at he; exact he.symm⟩
    · rcases hb : env.url_parse (creds.instance_url ++ DEFAULT_TOKEN_PATH) with e2 | u2 <;>
        simp only [hb] at he
      · exact Or.inl ⟨e2, by simp only [Except.error.injEq] at he; exact he.symm⟩
      · rcases hr : env.request_async cfg
            { client_id := creds.client_id, client_secret := s,
              auth_url := creds.instance_url ++ DEFAULT_AUTHORIZE_PATH,
              token_url := creds.instance_url ++ DEFAULT_TOKEN_PATH }
            GrantRequest.clientCredentialsGrant with e3 | t <;>
          simp only [hr] at he
        · exact Or.inr ⟨e3, by simp only [Except.error.injEq] at he; exact he.symm⟩
        · exact absurd he (by simp)
  · intro hflow e he
    obtain ⟨hun, hpw⟩ := hup hflow
    rcases Option.ne_none_iff_exists'.mp hun with ⟨u, hu⟩
    rcases Option.ne_none_iff_exists'.mp hpw with ⟨p, hp⟩
    unfold Client.exchange_password at he
    simp only [hs, hu, hp] at he
    rcases ha : env.url_parse (creds.instance_url ++ DEFAULT_AUTHORIZE_PATH) with e1 | u1 <;>
      simp only [ha] at he
    · exact Or.inl ⟨e1, by simp only [Except.error.injEq] at he; exact he.symm⟩
    · rcases hb : env.url_parse (creds.instance_url ++ DEFAULT_TOKEN_PATH) with e2 | u2 <;>
        simp only [hb] at he
      · exact Or.inl ⟨e2, by simp only [Except.error.injEq] at he; exact he.symm⟩
      · rcases hr : env.request_async cfg
            { client_id := creds.client_id, client_secret := s,
              auth_url := creds.instance_url ++ DEFAULT_AUTHORIZE_PATH,
              token_url := creds.instance_url ++ DEFAULT_TOKEN_PATH }
            (GrantRequest.passwordGrant u p) with e3 | t <;>
          simp only [hr] at he
        · exact Or.inr ⟨e3, by simp only [Except.error.injEq] at he; exact he.symm⟩
        · exact absurd he (by simp)

/-- Witness for C9: a concrete post-validation exchange failure is a
`ParseUrl` or `TokenExchange` error. -/
theorem claim9_recheck_unreachable_witness :
    ∃ r, sampleClientCC.exchange_client_credentials envNoScheme noSchemeCreds
        { redirect_policy := RedirectPolicy.none } = Except.error r ∧
      ((∃ s, r = Error.ParseUrl s) ∨ (∃ s, r = Error.TokenExchange s)) :=
  ⟨Error.ParseUrl "relative URL without a base", rfl,
    (claim9_recheck_unreachable envNoScheme sampleClientCC noSchemeCreds
        { redirect_policy := RedirectPolicy.none } rfl).1 rfl _ rfl⟩

end Salesforce
